import Mathlib

/-!
Formal model of `zeroconf.py` (simple Zeroconf service search/registration).

Each Python function relevant to the verified properties is translated as a
pure Lean function over byte strings (`List Nat`, since Python 2 `str` is a
byte string) and explicit registry states:

* `decodeBody` models `re.sub(r"(\\\d\d\d)|(\\.)", replace, text)` in
  `decode`: the scanner tries, at each position, first the three-digit
  escape pattern, then backslash-plus-any-character (where `.` does not
  match the line-feed byte 10), and otherwise copies the byte and moves on.
  The replacement callback `chr(int(...))` raises `ValueError` above 255,
  modelled by `pyChr` returning `none`.
* `encodeAscii` models `text.encode("ascii")`, which fails on any byte
  outside the 7-bit range; `pyDecode` composes the two steps as `decode`
  does, with `none` standing for a raised exception.
* `register` and `unregister` model the `_publishers` dict bookkeeping,
  with `PortArg` covering a numeric or string `port` argument, Python
  truthiness of the port (`if port:`) modelled by `portTruthy`, and
  Python 2 `==` between a stored string key and the port argument
  modelled by `pyPortEq` (a `str` never equals an `int`).
* `name_match` and `searchFilter` model the client-side name filter of
  `search`; `avahiBrowseCall` and `winSearchCmd` model the two
  platform-specific discovery-tool invocations; `parseGetAddress` models
  the output handling in `get_address` (index errors are `none`).
-/

/-- Predicate for the regex class `\d` on a byte: an ASCII decimal digit. -/
def isDigit (b : Nat) : Bool := decide (48 ≤ b) && decide (b ≤ 57)

/-- Numeric value of a three-digit escape, `int(numeric[1:])` on digits. -/
def escVal (d1 d2 d3 : Nat) : Nat := (d1 - 48) * 100 + (d2 - 48) * 10 + (d3 - 48)

/-- Python 2 `chr`: a byte for values 0..255, `ValueError` (none) above. -/
def pyChr (v : Nat) : Option Nat := if v < 256 then some v else none

/-- Python 2 `text.encode("ascii")`: fails on any byte outside 0..127. -/
def encodeAscii (s : List Nat) : Option (List Nat) :=
  if s.all (fun b => decide (b < 128)) then some s else none

/-- Scanner of `re.sub(r"(\\\d\d\d)|(\\.)", replace, text)` in `decode`:
at each position, the first alternative matches a backslash followed by
three digits (replaced through `chr`), the second matches a backslash
followed by any byte except line feed (replaced by that byte), and on no
match the byte is copied and scanning resumes at the next position.
When a backslash precedes a line feed neither alternative matches at the
backslash and none matches at the line feed either (a match can only
start with a backslash), so the scanner copies both bytes and resumes
after them; that two-byte step is written as one step here. -/
def decodeBody : List Nat → Option (List Nat)
  | [] => some []
  | b :: rest =>
    if b = 92 then
      match rest with
      | d1 :: d2 :: d3 :: rest2 =>
        if isDigit d1 && isDigit d2 && isDigit d3 then
          match pyChr (escVal d1 d2 d3) with
          | some v => (decodeBody rest2).map (fun out => v :: out)
          | none => none
        else if d1 = 10 then (decodeBody (d2 :: d3 :: rest2)).map (fun out => b :: d1 :: out)
        else (decodeBody (d2 :: d3 :: rest2)).map (fun out => d1 :: out)
      | d1 :: rest2 =>
        if d1 = 10 then (decodeBody rest2).map (fun out => b :: d1 :: out)
        else (decodeBody rest2).map (fun out => d1 :: out)
      | [] => some [b]
    else (decodeBody rest).map (fun out => b :: out)

/-- The `decode` function: ASCII validation followed by the escape scan;
`none` models a raised exception. -/
def pyDecode (s : List Nat) : Option (List Nat) :=
  match encodeAscii s with
  | some t => decodeBody t
  | none => none

/-- Test for a byte list starting with two decimal digits (used to state
when a backslash-plus-digit pair is overridden by a three-digit escape). -/
def twoDigitLead : List Nat → Bool
  | a :: b :: _ => isDigit a && isDigit b
  | _ => false

/-- Decoder described literally by the claim: every backslash followed by
exactly three decimal digits becomes the byte of that value, every
backslash followed by any other single character becomes that character,
all other bytes pass through. -/
def decodeC1Spec : List Nat → List Nat
  | [] => []
  | 92 :: d1 :: d2 :: d3 :: rest =>
    if isDigit d1 && isDigit d2 && isDigit d3 then escVal d1 d2 d3 :: decodeC1Spec rest
    else d1 :: decodeC1Spec (d2 :: d3 :: rest)
  | 92 :: c :: rest => c :: decodeC1Spec rest
  | [92] => [92]
  | b :: rest => b :: decodeC1Spec rest

/-- Whether the scan of the input reaches its final byte as a lone,
unmatched backslash (same token structure as `decodeBody`). -/
def lastTokenLone : List Nat → Bool
  | [] => false
  | b :: rest =>
    if b = 92 then
      match rest with
      | d1 :: d2 :: d3 :: rest2 =>
        if isDigit d1 && isDigit d2 && isDigit d3 then lastTokenLone rest2
        else lastTokenLone (d2 :: d3 :: rest2)
      | _ :: rest2 =>
        lastTokenLone rest2
      | [] => true
    else lastTokenLone rest

example : pyDecode [97, 98, 99] = some [97, 98, 99] := by decide
example : pyDecode [97, 92, 46, 99] = some [97, 46, 99] := by decide
example : pyDecode [97, 92, 92, 99] = some [97, 92, 99] := by decide
example : pyDecode [97, 92, 48, 51, 50, 99] = some [97, 32, 99] := by decide
example : pyDecode [92, 50, 50, 54, 92, 49, 50, 56, 92, 49, 53, 51] = some [226, 128, 153] := by decide
example : pyDecode [92, 57, 57, 57] = none := by decide
example : pyDecode [92, 10] = some [92, 10] := by decide
example : pyDecode [97, 92] = some [97, 92] := by decide
example : lastTokenLone [97, 92] = true := by decide
example : lastTokenLone [97, 92, 92] = false := by decide

/-! Unfolding equations for `decodeBody` and `lastTokenLone`, one per
input shape (they hold definitionally; they are spelled out because the
generic equation lemmas of the overlapping match are expensive). -/

theorem decodeBody_cons0 (b : Nat) :
    decodeBody [b] =
      if b = 92 then some [b] else (decodeBody []).map (fun out => b :: out) := rfl

theorem decodeBody_cons1 (b d1 : Nat) :
    decodeBody [b, d1] =
      if b = 92 then
        if d1 = 10 then (decodeBody []).map (fun out => b :: d1 :: out)
        else (decodeBody []).map (fun out => d1 :: out)
      else (decodeBody [d1]).map (fun out => b :: out) := rfl

theorem decodeBody_cons2 (b d1 d2 : Nat) :
    decodeBody [b, d1, d2] =
      if b = 92 then
        if d1 = 10 then (decodeBody [d2]).map (fun out => b :: d1 :: out)
        else (decodeBody [d2]).map (fun out => d1 :: out)
      else (decodeBody [d1, d2]).map (fun out => b :: out) := rfl

theorem decodeBody_cons3 (b d1 d2 d3 : Nat) (rest2 : List Nat) :
    decodeBody (b :: d1 :: d2 :: d3 :: rest2) =
      if b = 92 then
        if isDigit d1 && isDigit d2 && isDigit d3 then
          match pyChr (escVal d1 d2 d3) with
          | some v => (decodeBody rest2).map (fun out => v :: out)
          | none => none
        else if d1 = 10 then (decodeBody (d2 :: d3 :: rest2)).map (fun out => b :: d1 :: out)
        else (decodeBody (d2 :: d3 :: rest2)).map (fun out => d1 :: out)
      else (decodeBody (d1 :: d2 :: d3 :: rest2)).map (fun out => b :: out) := rfl

theorem decodeBody_plain (b : Nat) (rest : List Nat) (hb : b ≠ 92) :
    decodeBody (b :: rest) = (decodeBody rest).map (fun out => b :: out) := by
  rcases rest with _ | ⟨d1, _ | ⟨d2, _ | ⟨d3, rest2⟩⟩⟩
  · rw [decodeBody_cons0, if_neg hb]
  · rw [decodeBody_cons1, if_neg hb]
  · rw [decodeBody_cons2, if_neg hb]
  · rw [decodeBody_cons3, if_neg hb]

theorem lastTokenLone_cons0 (b : Nat) :
    lastTokenLone [b] = if b = 92 then true else lastTokenLone [] := rfl

theorem lastTokenLone_cons1 (b d1 : Nat) :
    lastTokenLone [b, d1] =
      if b = 92 then lastTokenLone [] else lastTokenLone [d1] := rfl

theorem lastTokenLone_cons2 (b d1 d2 : Nat) :
    lastTokenLone [b, d1, d2] =
      if b = 92 then lastTokenLone [d2] else lastTokenLone [d1, d2] := rfl

theorem lastTokenLone_cons3 (b d1 d2 d3 : Nat) (rest2 : List Nat) :
    lastTokenLone (b :: d1 :: d2 :: d3 :: rest2) =
      if b = 92 then
        if isDigit d1 && isDigit d2 && isDigit d3 then lastTokenLone rest2
        else lastTokenLone (d2 :: d3 :: rest2)
      else lastTokenLone (d1 :: d2 :: d3 :: rest2) := rfl

theorem lastTokenLone_plain (b : Nat) (rest : List Nat) (hb : b ≠ 92) :
    lastTokenLone (b :: rest) = lastTokenLone rest := by
  rcases rest with _ | ⟨d1, _ | ⟨d2, _ | ⟨d3, rest2⟩⟩⟩
  · rw [lastTokenLone_cons0, if_neg hb]
  · rw [lastTokenLone_cons1, if_neg hb]
  · rw [lastTokenLone_cons2, if_neg hb]
  · rw [lastTokenLone_cons3, if_neg hb]

/-- Appending a byte to the input does not disturb the scan of the part
before it as long as the scan of the whole input reaches the appended
final backslash as a lone token: the decoded output is the old one with
the backslash appended, and failure of the whole equals failure of the
part (`Option.map` preserves `none`). -/
theorem decodeBody_append_lone :
    ∀ (n : Nat) (s : List Nat), s.length ≤ n → lastTokenLone (s ++ [92]) = true →
      decodeBody (s ++ [92]) = (decodeBody s).map (fun out => out ++ [92]) := by
  intro n
  induction n with
  | zero =>
    intro s hlen _
    rcases s with _ | ⟨b, s1⟩
    · rfl
    · simp [List.length_cons] at hlen
  | succ n ih =>
    intro s hlen hl
    rcases s with _ | ⟨b, s1⟩
    · rfl
    by_cases hb : b = 92
    case neg =>
      simp only [List.cons_append] at hl ⊢
      rw [lastTokenLone_plain b (s1 ++ [92]) hb] at hl
      rw [decodeBody_plain b (s1 ++ [92]) hb, decodeBody_plain b s1 hb,
        ih s1 (by simp [List.length_cons] at hlen; omega) hl]
      cases decodeBody s1 <;> rfl
    case pos =>
      subst hb
      rcases s1 with _ | ⟨d1, _ | ⟨d2, _ | ⟨d3, s4⟩⟩⟩
      · exact absurd hl (by decide)
      · by_cases h10 : d1 = 10
        · subst h10; decide
        · simp only [List.cons_append, List.nil_append]
          rw [decodeBody_cons2, if_pos rfl, if_neg h10,
            decodeBody_cons1, if_pos rfl, if_neg h10]
          rfl
      · simp only [List.cons_append, List.nil_append] at hl ⊢
        have hdig : (isDigit d1 && isDigit d2 && isDigit 92) = false := by
          rw [show isDigit 92 = false from rfl, Bool.and_false]
        rw [lastTokenLone_cons3, if_pos rfl,
          if_neg (by rw [hdig]; exact Bool.false_ne_true)] at hl
        have hih := ih [d2] (by simp [List.length_cons] at hlen ⊢; omega) hl
        by_cases h10 : d1 = 10
        · subst h10
          rw [decodeBody_cons3, if_pos rfl,
            if_neg (by rw [hdig]; exact Bool.false_ne_true), if_pos rfl]
          rw [show (d2 :: [92] : List Nat) = [d2] ++ [92] from rfl, hih,
            decodeBody_cons2, if_pos rfl, if_pos rfl]
          cases decodeBody [d2] <;> rfl
        · rw [decodeBody_cons3, if_pos rfl,
            if_neg (by rw [hdig]; exact Bool.false_ne_true), if_neg h10]
          rw [show (d2 :: [92] : List Nat) = [d2] ++ [92] from rfl, hih,
            decodeBody_cons2, if_pos rfl, if_neg h10]
          cases decodeBody [d2] <;> rfl
      · simp only [List.cons_append] at hl ⊢
        rw [lastTokenLone_cons3, if_pos rfl] at hl
        rw [decodeBody_cons3, if_pos rfl, decodeBody_cons3, if_pos rfl]
        by_cases hdig : (isDigit d1 && isDigit d2 && isDigit d3) = true
        · rw [if_pos hdig, if_pos hdig]
          rw [if_pos hdig] at hl
          cases hchr : pyChr (escVal d1 d2 d3) with
          | none => rfl
          | some v =>
            rw [ih s4 (by simp [List.length_cons] at hlen; omega) hl]
            cases decodeBody s4 <;> rfl
        · have hdig' : (isDigit d1 && isDigit d2 && isDigit d3) = false :=
            Bool.eq_false_iff.mpr hdig
          rw [if_neg hdig, if_neg hdig]
          rw [if_neg hdig] at hl
          have hih := ih (d2 :: d3 :: s4) (by simp [List.length_cons] at hlen ⊢; omega) hl
          simp only [List.cons_append] at hih
          by_cases h10 : d1 = 10
          · rw [if_pos h10, if_pos h10, hih]
            cases decodeBody (d2 :: d3 :: s4) <;> rfl
          · rw [if_neg h10, if_neg h10, hih]
            cases decodeBody (d2 :: d3 :: s4) <;> rfl

/-! ## Service registry (`_publishers`, `register`, `unregister`) -/

/-- Registry key: the `(name, type, port)` triple, port already a string. -/
abbrev Key := String × String × String

/-- Registry entry: key plus the publisher subprocess handle (a process id
stands in for the `Popen` object). -/
abbrev Entry := Key × Nat

/-- A `port` argument as passed by callers: a number or a string. -/
inductive PortArg where
  | num (k : Nat)
  | str (s : String)

/-- Python `str(port)`. -/
def portStr : PortArg → String
  | PortArg.num k => toString k
  | PortArg.str s => s

/-- Python truthiness of the port argument (`if port:`): 0 and the empty
string are falsy. -/
def portTruthy : PortArg → Bool
  | PortArg.num k => decide (k ≠ 0)
  | PortArg.str s => decide (s ≠ "")

/-- Python 2 `port_ == port` where `port_` is the stored string key
component: a `str` compares equal to another `str` with the same
characters, and never to an `int`. -/
def pyPortEq (stored : String) : PortArg → Bool
  | PortArg.num _ => false
  | PortArg.str s => decide (stored = s)

/-- Error raised by `register` (`RuntimeError("service already registered")`). -/
inductive RegError where
  | alreadyRegistered

/-- The `register` function: normalizes the port with `str`, raises on a
duplicate `(name, type, port)` key, otherwise spawns the publisher and
stores its handle (the Linux and Windows branches store identically). -/
def register (st : List Entry) (name type_ : String) (port : PortArg) (handle : Nat) :
    Except RegError (List Entry) :=
  if st.any (fun e => decide (e.1 = (name, type_, portStr port))) then
    Except.error RegError.alreadyRegistered
  else
    Except.ok (st ++ [((name, type_, portStr port), handle)])

/-- Registry state after a `register` call, whether or not it raised. -/
def registerState (st : List Entry) (name type_ : String) (port : PortArg) (handle : Nat) :
    List Entry :=
  match register st name type_ port handle with
  | Except.ok st' => st'
  | Except.error _ => st

/-- The `if port: port = str(port)` step of `unregister`: a truthy port
argument is normalized to its string form, a falsy one is kept as is. -/
def normPortSel : Option PortArg → Option PortArg
  | none => none
  | some p => if portTruthy p then some (PortArg.str (portStr p)) else some p

/-- The selection predicate of `unregister`: each provided (non-`None`)
field must equal the corresponding key component; omitted fields match
everything. -/
def keyMatches (name : Option String) (type_ : Option String) (port : Option PortArg)
    (k : Key) : Bool :=
  (match name with | none => true | some n => decide (k.1 = n)) &&
  (match type_ with | none => true | some t => decide (k.2.1 = t)) &&
  (match port with | none => true | some p => pyPortEq k.2.2 p)

/-- The `unregister` function: normalizes a truthy port argument, kills
every matching publisher and deletes its entry; the surviving registry is
the original one restricted to non-matching keys. -/
def unregister (st : List Entry) (name : Option String) (type_ : Option String)
    (port : Option PortArg) : List Entry :=
  st.filter (fun e => ! keyMatches name type_ (normPortSel port) e.1)

example : register [] "svc" "_http._tcp" (PortArg.num 49152) 3 =
    Except.ok [(("svc", "_http._tcp", "49152"), 3)] := rfl
example : unregister [(("svc", "_http._tcp", "49152"), 3)] none none none = [] := rfl
example : unregister [(("svc", "_http._tcp", "0"), 3)] (some "svc") (some "_http._tcp")
    (some (PortArg.num 0)) = [(("svc", "_http._tcp", "0"), 3)] := rfl
example : unregister [(("svc", "_http._tcp", "0"), 3)] (some "svc") (some "_http._tcp")
    (some (PortArg.str "0")) = [] := rfl

/-! ## Search (`search`, `name_match`) and the two tool invocations -/

/-- Service record value stored in the `search` result mapping. -/
structure SRecord where
  hostname : String
  address : String
  port : String
  txt : String
deriving DecidableEq

/-- The inner `name_match` predicate of `search`:
`name is None or name_ == name` on the `(name, type, domain)` key. -/
def name_match (name : Option String) (service : Key) : Bool :=
  match name with
  | none => true
  | some n => decide (service.1 = n)

/-- The final, client-side filtering step of `search`: keep the items of
the built result mapping whose key passes `name_match`. -/
def searchFilter (info : List (Key × SRecord)) (name : Option String) :
    List (Key × SRecord) :=
  info.filter (fun item => name_match name item.1)

/-- Flags of one `avahi-browse` invocation on the Linux path. -/
structure AvahiCall where
  allServices : Bool
  serviceType : Option String
  terminate : Bool
  resolve : Bool
  parsable : Bool
  noDbLookup : Bool
  domain : String
deriving DecidableEq

/-- Python truthiness of the optional `type` argument of `search`. -/
def strTruthy : Option String → Bool
  | none => false
  | some s => decide (s ≠ "")

/-- The `avahi-browse` invocation built by `search` on Linux: a truthy
`type` is browsed directly, otherwise the `all=True` flag is passed. -/
def avahiBrowseCall (type_ : Option String) (domain : String) : AvahiCall :=
  if strTruthy type_ then
    { allServices := false, serviceType := type_, terminate := true, resolve := true,
      parsable := true, noDbLookup := true, domain := domain }
  else
    { allServices := true, serviceType := none, terminate := true, resolve := true,
      parsable := true, noDbLookup := true, domain := domain }

/-- The `dns-sd` command line built by `search` on the Windows path:
`if not type: type = "_http._tcp"` followed by `"dns-sd -Z " + type + " " + domain`. -/
def winSearchCmd (type_ : Option String) (domain : String) : String :=
  let t := match type_ with
    | none => "_http._tcp"
    | some s => if s = "" then "_http._tcp" else s
  "dns-sd -Z " ++ t ++ " " ++ domain

example : winSearchCmd none "local" = "dns-sd -Z _http._tcp local" := rfl
example : (avahiBrowseCall none "local").allServices = true := rfl

/-! ## Address resolution (`get_address`) -/

/-- Output handling of `get_address` on the captured, line-split and
whitespace-tokenized `dns-sd -Q` output: when at least one line was read
(`len(results) >= 1`) the code returns `results[1][len(results[1]) - 1]`,
the last token of the second line; otherwise it returns the empty string.
An `IndexError` (no second line, or an empty second line indexed at -1)
is modelled by `none`. -/
def parseGetAddress (results : List (List String)) : Option String :=
  if 1 ≤ results.length then
    match results.get? 1 with
    | some line2 => line2.getLast?
    | none => none
  else some ""

example : parseGetAddress [] = some "" := rfl
example : parseGetAddress [["example.local", "can", "be", "resolved"]] = none := rfl
example : parseGetAddress [["h"], ["example.local", "A", "192.168.1.5"]] =
    some "192.168.1.5" := rfl

/-! ## Claims -/

/-- Claim C2: `decode` fails explicitly (raises, modelled by `none`) on
every input containing a byte outside the 7-bit ASCII range, and the
`encode("ascii")` validation step never fails on ASCII-only input. -/
theorem decode_c2_nonascii :
    (∀ s : List Nat, (∃ b, b ∈ s ∧ 128 ≤ b) → pyDecode s = none)
    ∧ (∀ s : List Nat, s.all (fun b => decide (b < 128)) = true → encodeAscii s = some s) := by
  constructor
  · rintro s ⟨b, hmem, hb⟩
    have hall : s.all (fun b => decide (b < 128)) = false := by
      rw [List.all_eq_false]
      exact ⟨b, hmem, by simpa using Nat.not_lt.mpr hb⟩
    simp [pyDecode, encodeAscii, hall]
  · intro s hs
    simp [encodeAscii, hs]

/-- Witness for C2: a concrete non-ASCII byte string is rejected, a
concrete ASCII one passes validation unchanged. -/
theorem decode_c2_nonascii_witness :
    pyDecode [104, 233, 108] = none ∧ encodeAscii [104, 105] = some [104, 105] :=
  ⟨decode_c2_nonascii.1 [104, 233, 108] ⟨233, by decide, by decide⟩,
   decode_c2_nonascii.2 [104, 105] (by decide)⟩

/-- Claim C4: `unregister()` with no arguments removes every tracked
publisher and leaves the registry empty, for every registry state. -/
theorem unregister_c4_all (st : List Entry) : unregister st none none none = [] := by
  simp [unregister, normPortSel, keyMatches]

/-- Claim C5: `unregister(name=X)` keeps exactly the entries whose name
component differs from `X`, each unchanged (same key, same handle): the
result is the filter of the old registry, and membership is equivalent to
old membership plus a name different from `X`. -/
theorem unregister_c5_by_name (st : List Entry) (X : String) :
    unregister st (some X) none none = st.filter (fun e => ! decide (e.1.1 = X))
    ∧ ∀ e : Entry, (e ∈ unregister st (some X) none none ↔ e ∈ st ∧ e.1.1 ≠ X) := by
  have hk : ∀ k : Key, keyMatches (some X) none none k = decide (k.1 = X) := by
    intro k; simp [keyMatches]
  constructor
  · simp only [unregister, normPortSel, hk]
  · intro e
    simp [unregister, normPortSel, hk, List.mem_filter]

/-- Claim C7: `search` filters the built result mapping client-side with
`name_match`, an exact, case-sensitive string comparison against the
optional name argument: with a name given the result is the exact-match
filter of the mapping, with no match at all it is empty (never a
failure), and with the name omitted nothing is filtered out. -/
theorem search_c7_filter :
    (∀ (info : List (Key × SRecord)) (X : String),
       searchFilter info (some X) = info.filter (fun item => decide (item.1.1 = X)))
    ∧ (∀ (info : List (Key × SRecord)) (X : String),
       (∀ item ∈ info, item.1.1 ≠ X) → searchFilter info (some X) = [])
    ∧ (∀ info : List (Key × SRecord), searchFilter info none = info) := by
  refine ⟨fun info X => rfl, fun info X h => ?_, fun info => ?_⟩
  · rw [searchFilter, List.filter_eq_nil_iff]
    intro item hmem
    simp [name_match, h item hmem]
  · simp [searchFilter, name_match]

/-- Witness for C7: searching a one-entry mapping for a name that differs
only in capitalization matches nothing and yields the empty mapping. -/
theorem search_c7_filter_witness :
    searchFilter [(((("printer", "_ipp._tcp", "local"),
      ⟨"host.local", "192.168.0.9", "631", ""⟩) : Key × SRecord))] (some "Printer") = [] :=
  search_c7_filter.2.1 _ "Printer" (by decide)

/-- Claim C8 (code bug): on resolver output of at least one line,
`get_address` takes the last whitespace token of the second line; with no
output it returns the empty string; but on output of exactly one line the
`len(results) >= 1` guard admits the `results[1]` access and the code
raises `IndexError` instead of returning the empty string. -/
theorem get_address_c8_eval :
    parseGetAddress [["example.local", "can", "be", "resolved"]] = none
    ∧ parseGetAddress [] = some ""
    ∧ parseGetAddress [["DATE:", "2024"], ["example.local", "A", "192.168.1.5"]] =
        some "192.168.1.5" :=
  ⟨rfl, rfl, rfl⟩

/-- Counterexample to C9 as stated: on the Windows path an omitted `type`
does not put the discovery tool in an all-services mode; the command line
is the one of the single default type `_http._tcp`. -/
theorem search_c9_windows_default_cex :
    winSearchCmd none "local" = "dns-sd -Z _http._tcp local"
    ∧ winSearchCmd none "local" = winSearchCmd (some "_http._tcp") "local" :=
  ⟨rfl, rfl⟩

/-- Claim C9 as amended: with `type` omitted, the Linux path invokes
`avahi-browse` in all-services mode (no type argument), while the Windows
path substitutes the single default type `_http._tcp` and browses only
that type. -/
theorem search_c9_amended :
    (∀ d : String, (avahiBrowseCall none d).allServices = true
       ∧ (avahiBrowseCall none d).serviceType = none)
    ∧ (∀ d : String, winSearchCmd none d = winSearchCmd (some "_http._tcp") d)
    ∧ winSearchCmd none "local" = "dns-sd -Z _http._tcp local" :=
  ⟨fun _ => ⟨rfl, rfl⟩, fun _ => rfl, rfl⟩

/-- Claim C3: after any `register(name, type, port)` call, a second
`register` with the same name and type and a port of the same canonical
string form raises the duplicate-registration error; and a numeric port
has the same canonical form as its decimal string, so the two count as
the same registration. -/
theorem register_c3_duplicate :
    (∀ (st : List Entry) (n t : String) (p q : PortArg) (h1 h2 : Nat),
       portStr p = portStr q →
       register (registerState st n t p h1) n t q h2 =
         Except.error RegError.alreadyRegistered)
    ∧ (∀ k : Nat, portStr (PortArg.num k) = portStr (PortArg.str (toString k))) := by
  constructor
  · intro st n t p q h1 h2 hpq
    rw [registerState]
    by_cases hany : st.any (fun e => decide (e.1 = (n, t, portStr p))) = true
    · have hany' : st.any (fun e => decide (e.1 = (n, t, portStr q))) = true := by
        rw [← hpq]; exact hany
      simp [register, hany, hany']
    · have hany2 : (st ++ [((n, t, portStr p), h1)]).any
          (fun e => decide (e.1 = (n, t, portStr q))) = true := by
        rw [List.any_append]
        simp [← hpq]
      simp [register, hany, hany2]
  · intro k
    rfl

/-- Witness for C3: registering port 80 as a number and then as the
string "80" hits the duplicate-registration error. -/
theorem register_c3_duplicate_witness :
    portStr (PortArg.num 80) = portStr (PortArg.str "80")
    ∧ register (registerState [] "svc" "_http._tcp" (PortArg.num 80) 1)
        "svc" "_http._tcp" (PortArg.str "80") 2 =
        Except.error RegError.alreadyRegistered :=
  ⟨by decide,
   register_c3_duplicate.1 [] "svc" "_http._tcp" (PortArg.num 80) (PortArg.str "80") 1 2
     (by decide)⟩

/-- Counterexample to C6 as stated: registering with numeric port 0 and
then unregistering with the same arguments does not restore the registry;
the falsy port argument skips the `str` normalization and the stored
string key "0" never equals the integer 0, so the entry survives. -/
theorem unregister_c6_port_zero_cex :
    register [] "svc" "_http._tcp" (PortArg.num 0) 3 =
      Except.ok [(("svc", "_http._tcp", "0"), 3)]
    ∧ unregister [(("svc", "_http._tcp", "0"), 3)] (some "svc") (some "_http._tcp")
        (some (PortArg.num 0)) = [(("svc", "_http._tcp", "0"), 3)] :=
  ⟨rfl, rfl⟩

/-- Claim C6 as amended: for every port argument that is truthy (a
nonzero number, or any nonempty string including "0") and has the same
canonical string form as the port used at registration, unregistering
with the same name and type right after a successful registration
restores the registry to its previous state. -/
theorem unregister_c6_roundtrip (st st' : List Entry) (n t : String) (p q : PortArg)
    (h : Nat) (hq : portTruthy q = true) (hpq : portStr q = portStr p)
    (hreg : register st n t p h = Except.ok st') :
    unregister st' (some n) (some t) (some q) = st := by
  rw [register] at hreg
  by_cases hany : st.any (fun e => decide (e.1 = (n, t, portStr p))) = true
  · simp only [hany, if_true] at hreg
    exact absurd hreg (by simp)
  · simp only [hany, Bool.false_eq_true, if_false, Except.ok.injEq] at hreg
    subst hreg
    rw [unregister]
    have hsel : normPortSel (some q) = some (PortArg.str (portStr q)) := by
      rw [normPortSel, if_pos hq]
    rw [hsel, List.filter_append]
    have hlast : keyMatches (some n) (some t) (some (PortArg.str (portStr q)))
        (n, t, portStr p) = true := by
      simp [keyMatches, pyPortEq, hpq]
    have h1 : [((n, t, portStr p), h)].filter
        (fun e => ! keyMatches (some n) (some t) (some (PortArg.str (portStr q))) e.1)
        = [] := by
      simp [hlast]
    have h2 : st.filter
        (fun e => ! keyMatches (some n) (some t) (some (PortArg.str (portStr q))) e.1)
        = st := by
      rw [List.filter_eq_self]
      intro e hmem
      have hne : decide (e.1 = (n, t, portStr p)) = false := by
        rcases hne2 : decide (e.1 = (n, t, portStr p)) with _ | _
        · rfl
        · exact absurd (List.any_eq_true.mpr ⟨e, hmem, hne2⟩) hany
      have : e.1 ≠ (n, t, portStr p) := by simpa using hne
      rcases e with ⟨⟨en, et, ep⟩, eh⟩
      simp only [keyMatches, pyPortEq, Bool.not_eq_true', Bool.and_eq_false_iff]
      by_cases h1 : en = n
      · by_cases h2 : et = t
        · have : ep ≠ portStr p := by
            intro hep
            exact this (by simp [h1, h2, hep])
          right
          simpa [hpq] using this
        · left; right; simpa using h2
      · left; left; simpa using h1
    rw [h1, h2, List.append_nil]

/-- Witness for C6 (amended): registering port 49152 as a number and
unregistering it as the string "49152" empties a previously empty
registry. -/
theorem unregister_c6_roundtrip_witness :
    portTruthy (PortArg.str "49152") = true
    ∧ unregister [(("svc", "_http._tcp", "49152"), 3)] (some "svc") (some "_http._tcp")
        (some (PortArg.str "49152")) = [] :=
  ⟨by decide,
   unregister_c6_roundtrip [] [(("svc", "_http._tcp", "49152"), 3)] "svc" "_http._tcp"
     (PortArg.num 49152) (PortArg.str "49152") 3 (by decide) (by decide) rfl⟩

/-- Counterexample to C1 as stated: the claim makes `decode` replace a
backslash followed by any single non-digit-triple character by that
character, but the regex class `.` does not match the line-feed byte, so
on the input backslash-LF the code passes both bytes through while the
claimed grammar yields the LF byte alone. -/
theorem decode_c1_claim_cex :
    pyDecode [92, 10] = some [92, 10]
    ∧ decodeC1Spec [92, 10] = [10]
    ∧ ([92, 10] : List Nat) ≠ [10] :=
  ⟨by decide, by decide, by decide⟩

/-- Claim C1 as amended, as equational laws of the scanner: ASCII
validation is the identity on ASCII input; a backslash followed by three
decimal digits denoting a value up to 255 becomes the single byte of that
value; one denoting a value above 255 makes `decode` fail (`chr` raises);
a backslash followed by any other single character except the line feed
becomes that character (provided the pair is not overridden by a
three-digit escape starting at the same backslash); a backslash followed
by a line feed passes through together with it; every byte other than a
backslash passes through unchanged; and chained three-digit escapes
decode to the raw byte sequence 0xE2 0x80 0x99 without any UTF-8
decoding. -/
theorem decode_c1_amended :
    (∀ s : List Nat, s.all (fun b => decide (b < 128)) = true → pyDecode s = decodeBody s)
    ∧ (∀ d1 d2 d3 rest, isDigit d1 = true → isDigit d2 = true → isDigit d3 = true →
        escVal d1 d2 d3 ≤ 255 →
        decodeBody (92 :: d1 :: d2 :: d3 :: rest) =
          (decodeBody rest).map (fun out => escVal d1 d2 d3 :: out))
    ∧ (∀ d1 d2 d3 rest, isDigit d1 = true → isDigit d2 = true → isDigit d3 = true →
        255 < escVal d1 d2 d3 →
        decodeBody (92 :: d1 :: d2 :: d3 :: rest) = none)
    ∧ (∀ c rest, c ≠ 10 → (isDigit c && twoDigitLead rest) = false →
        decodeBody (92 :: c :: rest) = (decodeBody rest).map (fun out => c :: out))
    ∧ (∀ rest, decodeBody (92 :: 10 :: rest) =
        (decodeBody (10 :: rest)).map (fun out => 92 :: out))
    ∧ (∀ b rest, b ≠ 92 →
        decodeBody (b :: rest) = (decodeBody rest).map (fun out => b :: out))
    ∧ pyDecode [92, 50, 50, 54, 92, 49, 50, 56, 92, 49, 53, 51] = some [226, 128, 153] := by
  refine ⟨?_, ?_, ?_, ?_, ?_, ?_, by decide⟩
  · intro s hs
    simp [pyDecode, encodeAscii, hs]
  · intro d1 d2 d3 rest hd1 hd2 hd3 hle
    have hchr : pyChr (escVal d1 d2 d3) = some (escVal d1 d2 d3) := by
      rw [pyChr, if_pos (Nat.lt_succ_of_le hle)]
    rw [decodeBody_cons3, if_pos rfl,
      if_pos (show (isDigit d1 && isDigit d2 && isDigit d3) = true by
        rw [hd1, hd2, hd3]; rfl), hchr]
  · intro d1 d2 d3 rest hd1 hd2 hd3 hgt
    have hchr : pyChr (escVal d1 d2 d3) = none := by
      rw [pyChr, if_neg (by omega)]
    rw [decodeBody_cons3, if_pos rfl,
      if_pos (show (isDigit d1 && isDigit d2 && isDigit d3) = true by
        rw [hd1, hd2, hd3]; rfl), hchr]
  · intro c rest hc hlead
    rcases rest with _ | ⟨a, _ | ⟨b, rest2⟩⟩
    · rw [decodeBody_cons1, if_pos rfl, if_neg hc]
    · rw [decodeBody_cons2, if_pos rfl, if_neg hc]
    · have hdig : (isDigit c && isDigit a && isDigit b) = false := by
        rw [Bool.and_assoc]
        simpa [twoDigitLead] using hlead
      rw [decodeBody_cons3, if_pos rfl, if_neg (by rw [hdig]; exact Bool.false_ne_true),
        if_neg hc]
  · intro rest
    rcases rest with _ | ⟨a, _ | ⟨b, rest2⟩⟩
    · decide
    · rw [decodeBody_cons2, if_pos rfl, if_pos rfl, decodeBody_cons1,
        if_neg (by decide : (10 : Nat) ≠ 92)]
      cases decodeBody [a] <;> rfl
    · rw [decodeBody_cons3, if_pos rfl,
        if_neg (by rw [show isDigit 10 = false from rfl]; exact Bool.false_ne_true),
        if_pos rfl, decodeBody_plain 10 (a :: b :: rest2) (by decide)]
      cases decodeBody (a :: b :: rest2) <;> rfl
  · intro b rest hb
    exact decodeBody_plain b rest hb

/-- Witness for C1 (amended): the three-digit escape backslash-065 decodes
to byte 65 and the character escape backslash-dot to the dot. -/
theorem decode_c1_amended_witness :
    isDigit 48 = true ∧ escVal 48 54 53 ≤ 255
    ∧ decodeBody [92, 48, 54, 53] = (decodeBody []).map (fun out => escVal 48 54 53 :: out)
    ∧ decodeBody [92, 46, 99] = (decodeBody [99]).map (fun out => 46 :: out) :=
  ⟨by decide, by decide,
   decode_c1_amended.2.1 48 54 53 [] (by decide) (by decide) (by decide) (by decide),
   decode_c1_amended.2.2.2.1 46 [99] (by decide) (by decide)⟩

/-- Counterexample to C10 as stated: the ASCII input backslash-999
followed by a lone trailing backslash makes `decode` raise (`chr(999)`
fails) even though the input ends in a lone unmatched trailing backslash,
so `decode` does not return normally on every such input. -/
theorem decode_c10_overflow_cex :
    ([92, 57, 57, 57, 92] : List Nat).all (fun b => decide (b < 128)) = true
    ∧ lastTokenLone ([92, 57, 57, 57] ++ [92]) = true
    ∧ pyDecode ([92, 57, 57, 57] ++ [92]) = none :=
  ⟨by decide, by decide, by decide⟩

/-- Claim C10 as amended: for every ASCII input ending in a lone
(unmatched) trailing backslash, the trailing backslash matches neither
escape pattern and is passed through unchanged, and it never introduces
an error: decoding the whole input is decoding the input without the
final backslash with the backslash appended, failures (a three-digit
escape above 255 earlier in the string) being propagated unchanged. -/
theorem decode_c10_trailing_amended (s : List Nat)
    (hs : s.all (fun b => decide (b < 128)) = true)
    (hl : lastTokenLone (s ++ [92]) = true) :
    pyDecode (s ++ [92]) = (pyDecode s).map (fun out => out ++ [92]) := by
  have hs2 : (s ++ [92]).all (fun b => decide (b < 128)) = true := by
    rw [List.all_append, hs]
    rfl
  rw [pyDecode, pyDecode, encodeAscii, encodeAscii, if_pos hs, if_pos hs2]
  exact decodeBody_append_lone s.length s (Nat.le_refl _) hl

/-- Witness for C10 (amended): appending a trailing backslash to "abc"
decodes to "abc" with the backslash passed through. -/
theorem decode_c10_trailing_amended_witness :
    lastTokenLone ([97, 98, 99] ++ [92]) = true
    ∧ pyDecode ([97, 98, 99] ++ [92]) =
        (pyDecode [97, 98, 99]).map (fun out => out ++ [92]) :=
  ⟨by decide, decode_c10_trailing_amended [97, 98, 99] (by decide) (by decide)⟩
